import Mathlib

/-!
Verification of the pavex HTTP server builder (`libs/pavex/src/server/server.rs`)
and the plain-text `TypedBody` implementations
(`libs/pavex/src/response/body/plain_text.rs`), together with spec-modelled
components (acceptor dispatch, graceful shutdown, worker isolation) whose
implementation is outside the extracted sources.
-/

namespace Pavex

/-- A socket address: an IP (abstracted to a number) plus a port. -/
structure SocketAddr where
  ip : Nat
  port : Nat
deriving DecidableEq, Repr

/-- An `IncomingStream` owns one bound OS listening socket, identified by its
resolved bound address. -/
structure IncomingStream where
  localAddr : SocketAddr
deriving DecidableEq, Repr

/-- Modelled from the spec: `ServerConfiguration` is defined outside the
extracted sources; the spec describes it as an opaque bag of tunables
(worker count, timeouts, protocol toggles, shutdown grace period). -/
structure ServerConfiguration where
  workerCount : Nat
  requestTimeoutMs : Option Nat
  http2Enabled : Bool
  shutdownGracePeriodMs : Option Nat
deriving DecidableEq, Repr

/-- Modelled from the spec: the default configuration; the only confirmed
default is that the worker count defaults to the available core count. -/
def ServerConfiguration.defaultConfig (availableCores : Nat) : ServerConfiguration :=
  { workerCount := availableCores
    requestTimeoutMs := none
    http2Enabled := true
    shutdownGracePeriodMs := none }

/-- `Server` (`server.rs`, struct `Server`): a builder holding a
`ServerConfiguration` and the ordered list of incoming streams. -/
structure Server where
  config : ServerConfiguration
  incoming : List IncomingStream
deriving DecidableEq, Repr

/-- `Server::new` (`server.rs:69-74`): default configuration, empty list. -/
def Server.new (availableCores : Nat) : Server :=
  { config := ServerConfiguration.defaultConfig availableCores
    incoming := [] }

/-- `Server::set_config` (`server.rs:81-84`): overwrite the configuration. -/
def Server.set_config (s : Server) (config : ServerConfiguration) : Server :=
  { s with config := config }

/-- `Server::get_config` (`server.rs:89-91`): read the configuration. -/
def Server.get_config (s : Server) : ServerConfiguration :=
  s.config

/-- Typed I/O errors surfaced by `bind` (spec section 7: address in use,
permission denied, invalid address). -/
inductive IoError where
  | addrInUse
  | permissionDenied
  | invalidAddress
  | other (msg : String)
deriving DecidableEq, Repr

/-- Modelled from the spec: `IncomingStream::bind` is not among the extracted
sources.  It asks the OS to bind a listening socket at `addr` and fails with a
typed I/O error when the address cannot be bound; the OS is modelled by the
set of addresses already held by active listeners, binding such an address
yields an address-in-use error. -/
def IncomingStream.bind (held : List SocketAddr) (addr : SocketAddr) :
    Except IoError IncomingStream :=
  if addr ∈ held then .error .addrInUse else .ok { localAddr := addr }

/-- `Server::bind` (`server.rs:146-150`): delegates to `IncomingStream::bind`
(abstracted here by the `bindStream` argument, since its implementation and
the OS state are outside the extracted sources), propagates its error via
`?`, and on success pushes the new stream onto the end of `incoming`. -/
def Server.bind (bindStream : SocketAddr → Except IoError IncomingStream)
    (s : Server) (addr : SocketAddr) : Except IoError Server :=
  match bindStream addr with
  | .error e => .error e
  | .ok incoming => .ok { s with incoming := s.incoming ++ [incoming] }

/-- `Server::listen` (`server.rs:226-229`): pushes the caller-constructed
stream onto the end of `incoming`. -/
def Server.listen (s : Server) (incoming : IncomingStream) : Server :=
  { s with incoming := s.incoming ++ [incoming] }

/-- The arguments captured by `ServerHandle::new` (`server.rs:263`); the
handle supervises the spawned acceptor/worker pool.  The handler and the
application state are opaque values of arbitrary types. -/
structure ServerHandle (H St : Type) where
  config : ServerConfiguration
  incoming : List IncomingStream
  handler : H
  applicationState : St

/-- Outcome of `Server::serve`: either a fatal precondition violation
(carrying the panic message, returning no value) or a `ServerHandle`. -/
inductive ServeOutcome (H St : Type) where
  | fatal (msg : String)
  | handle (h : ServerHandle H St)

/-- The panic message of `Server::serve` (`server.rs:261`). -/
def serveNoIncomingMsg : String :=
  "Cannot serve: there is no source of incoming connections. Please call `bind` or `listen` on the server before calling `serve`."

/-- `Server::serve` (`server.rs:251-264`): panics when `incoming` is empty,
otherwise hands configuration, streams, handler and application state to
`ServerHandle::new` and returns the handle without blocking. -/
def Server.serve {H St : Type} (s : Server) (handler : H) (applicationState : St) :
    ServeOutcome H St :=
  if s.incoming.isEmpty then
    .fatal serveNoIncomingMsg
  else
    .handle { config := s.config
              incoming := s.incoming
              handler := handler
              applicationState := applicationState }

/-- Claim C1: with zero registered incoming streams, `serve` is a fatal
precondition violation carrying a descriptive (nonempty) message and never
returns a handle; with at least one registered stream it returns a
`ServerHandle` (capturing the server's configuration and streams) without
blocking. -/
theorem serve_precondition {H St : Type} (s : Server) (handler : H) (st : St) :
    (s.incoming = [] →
      s.serve handler st = .fatal serveNoIncomingMsg ∧ serveNoIncomingMsg ≠ "" ∧
      ∀ h : ServerHandle H St, s.serve handler st ≠ .handle h) ∧
    (s.incoming ≠ [] →
      ∃ h : ServerHandle H St, s.serve handler st = .handle h ∧
        h.config = s.config ∧ h.incoming = s.incoming) := by
  constructor
  · intro he
    refine ⟨by simp [Server.serve, he], by simp [serveNoIncomingMsg], ?_⟩
    intro h
    simp [Server.serve, he]
  · intro hne
    refine ⟨{ config := s.config, incoming := s.incoming,
              handler := handler, applicationState := st }, ?_, rfl, rfl⟩
    simp [Server.serve, List.isEmpty_iff, hne]

/-- Witness for C1 at concrete servers: one with no streams, one with one. -/
theorem serve_precondition_witness :
    ((Server.new 4).serve 0 0 = ServeOutcome.fatal serveNoIncomingMsg) ∧
    (∃ h : ServerHandle Nat Nat,
      ((Server.new 4).listen ⟨⟨0, 80⟩⟩).serve 0 0 = .handle h ∧
        h.config = ((Server.new 4).listen ⟨⟨0, 80⟩⟩).config ∧
        h.incoming = ((Server.new 4).listen ⟨⟨0, 80⟩⟩).incoming) := by
  refine ⟨((serve_precondition _ 0 0).1 rfl).1,
          (serve_precondition _ 0 0).2 (by simp [Server.new, Server.listen])⟩

/-- Claim C4: `set_config` replaces the configuration wholesale, with no
merging: `get_config` on the result yields exactly the new configuration,
regardless of the configuration the server held before. -/
theorem set_config_replaces_wholesale (s : Server) (cfg : ServerConfiguration) :
    (s.set_config cfg).get_config = cfg := rfl

/-- Claim C5: a successful `bind` and a `listen` call both append exactly one
new stream to the end of the same ordered collection, keeping all previously
registered streams in their original order. -/
theorem bind_listen_append (bindStream : SocketAddr → Except IoError IncomingStream)
    (s : Server) (addr : SocketAddr) (inc : IncomingStream) :
    ((s.listen inc).incoming = s.incoming ++ [inc]) ∧
    (∀ s' : Server, Server.bind bindStream s addr = .ok s' →
      ∃ i : IncomingStream, bindStream addr = .ok i ∧
        s'.incoming = s.incoming ++ [i]) := by
  refine ⟨rfl, ?_⟩
  intro s' hok
  unfold Server.bind at hok
  cases hb : bindStream addr with
  | error e => rw [hb] at hok; exact absurd hok (by simp)
  | ok i =>
    rw [hb] at hok
    refine ⟨i, rfl, ?_⟩
    cases hok
    rfl

/-- Witness for C5 with a concrete server and a bind oracle that succeeds. -/
theorem bind_listen_append_witness :
    (((Server.new 1).listen ⟨⟨1, 80⟩⟩).incoming = (Server.new 1).incoming ++ [⟨⟨1, 80⟩⟩]) ∧
    (∃ i : IncomingStream,
      (fun a : SocketAddr => (Except.ok ⟨a⟩ : Except IoError IncomingStream)) ⟨2, 81⟩ = .ok i ∧
      ({ config := (Server.new 1).config, incoming := [⟨⟨2, 81⟩⟩] } : Server).incoming
        = (Server.new 1).incoming ++ [i]) := by
  refine ⟨(bind_listen_append (fun a => .ok ⟨a⟩) (Server.new 1) ⟨2, 81⟩ ⟨⟨1, 80⟩⟩).1, ?_⟩
  exact (bind_listen_append (fun a => .ok ⟨a⟩) (Server.new 1) ⟨2, 81⟩ ⟨⟨1, 80⟩⟩).2 _ rfl

/-- Claim C6: builder methods are frame-preserving: `set_config` leaves the
stream collection unchanged, and `listen` as well as a successful `bind`
leave the configuration unchanged. -/
theorem builder_frame (bindStream : SocketAddr → Except IoError IncomingStream)
    (s : Server) (cfg : ServerConfiguration) (addr : SocketAddr) (inc : IncomingStream) :
    ((s.set_config cfg).incoming = s.incoming) ∧
    ((s.listen inc).config = s.config) ∧
    (∀ s' : Server, Server.bind bindStream s addr = .ok s' → s'.config = s.config) := by
  refine ⟨rfl, rfl, ?_⟩
  intro s' hok
  unfold Server.bind at hok
  cases hb : bindStream addr with
  | error e => rw [hb] at hok; exact absurd hok (by simp)
  | ok i => rw [hb] at hok; cases hok; rfl

/-- Witness for C6 at a concrete server, configuration and bind oracle. -/
theorem builder_frame_witness :
    (((Server.new 2).set_config (ServerConfiguration.defaultConfig 8)).incoming
      = (Server.new 2).incoming) ∧
    (((Server.new 2).listen ⟨⟨1, 80⟩⟩).config = (Server.new 2).config) ∧
    (({ config := (Server.new 2).config, incoming := [⟨⟨2, 81⟩⟩] } : Server).config
      = (Server.new 2).config) := by
  refine ⟨(builder_frame (fun a => .ok ⟨a⟩) (Server.new 2)
            (ServerConfiguration.defaultConfig 8) ⟨2, 81⟩ ⟨⟨1, 80⟩⟩).1,
          (builder_frame (fun a => .ok ⟨a⟩) (Server.new 2)
            (ServerConfiguration.defaultConfig 8) ⟨2, 81⟩ ⟨⟨1, 80⟩⟩).2.1,
          (builder_frame (fun a => .ok ⟨a⟩) (Server.new 2)
            (ServerConfiguration.defaultConfig 8) ⟨2, 81⟩ ⟨⟨1, 80⟩⟩).2.2 _ rfl⟩

/-- Claim C7: `Server::bind` surfaces every failure of the underlying socket
bind as a typed `Err` (never a panic — the embedding is a total function into
`Except`), returns `Ok` only when `IncomingStream::bind` succeeded, and in
particular binding an address already held by an active listener fails with
an address-in-use error. -/
theorem bind_error_propagation (bindStream : SocketAddr → Except IoError IncomingStream)
    (held : List SocketAddr) (s : Server) (addr : SocketAddr) :
    (∀ e : IoError, bindStream addr = .error e → Server.bind bindStream s addr = .error e) ∧
    (∀ s' : Server, Server.bind bindStream s addr = .ok s' →
      ∃ i : IncomingStream, bindStream addr = .ok i) ∧
    (addr ∈ held →
      Server.bind (IncomingStream.bind held) s addr = .error .addrInUse) := by
  refine ⟨?_, ?_, ?_⟩
  · intro e he
    unfold Server.bind
    rw [he]
  · intro s' hok
    unfold Server.bind at hok
    cases hb : bindStream addr with
    | error e => rw [hb] at hok; exact absurd hok (by simp)
    | ok i => exact ⟨i, rfl⟩
  · intro hmem
    unfold Server.bind IncomingStream.bind
    simp [hmem]

/-- Witness for C7: a failing oracle propagates its error, a succeeding one
yields `Ok`, and a held address yields address-in-use. -/
theorem bind_error_propagation_witness :
    (Server.bind (fun _ => .error .permissionDenied) (Server.new 1) ⟨1, 80⟩
      = .error .permissionDenied) ∧
    (∃ i : IncomingStream,
      (fun a : SocketAddr => (Except.ok ⟨a⟩ : Except IoError IncomingStream)) ⟨1, 80⟩ = .ok i) ∧
    (Server.bind (IncomingStream.bind [⟨1, 80⟩]) (Server.new 1) ⟨1, 80⟩
      = .error .addrInUse) := by
  refine ⟨(bind_error_propagation (fun _ => .error .permissionDenied) [] (Server.new 1)
            ⟨1, 80⟩).1 _ rfl,
          (bind_error_propagation (fun a => .ok ⟨a⟩) [] (Server.new 1) ⟨1, 80⟩).2.1
            ({ config := (Server.new 1).config, incoming := [⟨⟨1, 80⟩⟩] } : Server) rfl,
          (bind_error_propagation (fun a => .ok ⟨a⟩) [⟨1, 80⟩] (Server.new 1) ⟨1, 80⟩).2.2
            (by simp)⟩

/-! ## Plain-text bodies (`libs/pavex/src/response/body/plain_text.rs`) -/

/-- The `mime` crate constant `TEXT_PLAIN_UTF_8`, as the header-value string
produced by `HeaderValue::from_static(mime::TEXT_PLAIN_UTF_8.as_ref())`. -/
def textPlainUtf8 : String := "text/plain; charset=utf-8"

/-- `bytes::Bytes`: a byte buffer. -/
abbrev Bytes := List UInt8

/-- `http_body_util::Full<Bytes>`: a full body with exactly one data frame. -/
structure Full where
  data : Bytes
deriving DecidableEq, Repr

/-- `Full::new`. -/
def Full.new (b : Bytes) : Full := ⟨b⟩

/-- The `String`/`&str` → `Bytes` conversion used by `self.into()`: the
string's UTF-8 bytes. -/
def strBytes (s : String) : Bytes := s.toUTF8.toList

/-! `impl TypedBody for String` (`plain_text.rs:10-20`); Rust `String` is
modelled as a Lean `String`. -/

namespace StringBody

/-- `<String as TypedBody>::content_type` (`plain_text.rs:13-15`). -/
def content_type (_ : String) : String :=
  textPlainUtf8

/-- `<String as TypedBody>::body` (`plain_text.rs:17-19`). -/
def body (s : String) : Full :=
  Full.new (strBytes s)

end StringBody

/-! `impl TypedBody for the static string slice type` (`plain_text.rs:22-32`);
a Rust string slice is modelled as a Lean `String`. -/

namespace StrBody

/-- `<&'static str as TypedBody>::content_type` (`plain_text.rs:25-27`). -/
def content_type (_ : String) : String :=
  textPlainUtf8

/-- `<&'static str as TypedBody>::body` (`plain_text.rs:29-31`). -/
def body (s : String) : Full :=
  Full.new (strBytes s)

end StrBody

/-- `Cow<'static, str>`: either a borrowed string slice or an owned string. -/
inductive Cow where
  | borrowed (s : String)
  | owned (s : String)
deriving DecidableEq, Repr

/-! `impl TypedBody for Cow` (`plain_text.rs:34-47`). -/

namespace CowBody

/-- `<Cow<'static, str> as TypedBody>::content_type` (`plain_text.rs:37-39`). -/
def content_type (_ : Cow) : String :=
  textPlainUtf8

/-- `<Cow<'static, str> as TypedBody>::body` (`plain_text.rs:41-46`):
delegates to the `&'static str` or `String` implementation by case. -/
def body : Cow → Full
  | .borrowed s => StrBody.body s
  | .owned s => StringBody.body s

end CowBody

/-- Claim C9: all three plain-text `content_type` implementations return the
constant header value `text/plain; charset=utf-8`, independent of the
value's contents. -/
theorem content_type_constant (s t : String) (c : Cow) :
    StringBody.content_type s = "text/plain; charset=utf-8" ∧
    StrBody.content_type t = "text/plain; charset=utf-8" ∧
    CowBody.content_type c = "text/plain; charset=utf-8" :=
  ⟨rfl, rfl, rfl⟩

/-- Claim C10: the `Cow` body agrees with the underlying implementations —
`Cow::Borrowed(s).body()` equals the `&'static str` body of `s` and
`Cow::Owned(s).body()` equals the `String` body of `s` — and in all three
cases the produced body is a full single-frame body whose frame is exactly
the UTF-8 bytes of the string. -/
theorem cow_body_agrees (s : String) :
    CowBody.body (Cow.borrowed s) = StrBody.body s ∧
    CowBody.body (Cow.owned s) = StringBody.body s ∧
    (StrBody.body s).data = strBytes s ∧
    (StringBody.body s).data = strBytes s ∧
    (CowBody.body (Cow.borrowed s)).data = strBytes s ∧
    (CowBody.body (Cow.owned s)).data = strBytes s :=
  ⟨rfl, rfl, rfl, rfl, rfl, rfl⟩

/-! ## Acceptor dispatch (spec sections 4.3 and 5; implementation outside the
extracted sources) -/

/-- Modelled from the spec: the acceptors (one per listening socket) share a
single counter.  `events` is the globally ordered sequence of accepted
connections, each tagged with the acceptor (listening socket) that accepted
it; the counter increments exactly once per accepted connection, and each
connection is dispatched to the worker with index `counter % W`. -/
def dispatch {α : Type} (W : Nat) : Nat → List α → List (α × Nat)
  | _, [] => []
  | counter, e :: es => (e, counter % W) :: dispatch W (counter + 1) es

/-- The dispatch sequence records one entry per accepted connection. -/
theorem dispatch_length {α : Type} (W counter : Nat) (es : List α) :
    (dispatch W counter es).length = es.length := by
  induction es generalizing counter with
  | nil => rfl
  | cons e es ih => simp [dispatch, ih]

/-- The worker indices produced by `dispatch` are the successive counter
values reduced modulo the worker count. -/
theorem dispatch_map_snd {α : Type} (W counter : Nat) (es : List α) :
    (dispatch W counter es).map Prod.snd
      = (List.range es.length).map (fun i => (counter + i) % W) := by
  induction es generalizing counter with
  | nil => rfl
  | cons e es ih =>
    simp only [dispatch, List.map_cons, ih, List.length_cons,
      List.range_succ_eq_map, List.map_map, Nat.add_zero, List.cons.injEq, true_and]
    refine List.map_congr_left fun i _ => ?_
    simp only [Function.comp_apply, Nat.succ_eq_add_one]
    congr 1
    omega

/-- Counting residues: among the first `W * k` counter values, each worker
index `w < W` occurs exactly `k` times. -/
theorem count_mod_range (W k w : Nat) (hw : w < W) :
    (((List.range (W * k)).map fun i => i % W).count w) = k := by
  induction k with
  | zero => simp
  | succ k ih =>
    have hmul : W * (k + 1) = W * k + W := by ring
    rw [hmul, List.range_add, List.map_append, List.count_append, ih, List.map_map]
    have hblock : ((List.range W).map fun i => (W * k + i) % W) = List.range W := by
      refine List.map_congr_left ?_ |>.trans (List.map_id _)
      intro i hi
      rw [Nat.mul_add_mod]
      exact Nat.mod_eq_of_lt (List.mem_range.1 hi)
    have hcomp : ((fun i => i % W) ∘ fun i => W * k + i) = fun i => (W * k + i) % W := rfl
    rw [hcomp, hblock, List.count_eq_one_of_mem (List.nodup_range W) (List.mem_range.2 hw)]

/-- The worker index assigned to the `n`-th accepted connection. -/
theorem dispatch_get_snd {α : Type} (W counter : Nat) (es : List α)
    (n : Nat) (hn : n < (dispatch W counter es).length) :
    ((dispatch W counter es).get ⟨n, hn⟩).2 = (counter + n) % W := by
  induction es generalizing counter n with
  | nil => simp [dispatch] at hn
  | cons e es ih =>
    cases n with
    | zero => simp [dispatch]
    | succ n =>
      have := ih (counter + 1) n (by simpa [dispatch, Nat.succ_lt_succ_iff] using hn)
      simpa [dispatch, Nat.add_assoc, Nat.add_comm 1 n] using this

/-- Claim C2: connection dispatch is round-robin through one counter shared
by all acceptors: over any globally ordered sequence of accepted connections
(tagged by accepting socket), the counter is consumed exactly once per
connection, the `n`-th accepted connection goes to worker `n % W`, and when
the number `C` of accepted connections is a multiple of the worker count `W`
every worker index `w < W` receives exactly `C / W` connections. -/
theorem round_robin_fairness {α : Type} (W : Nat) (events : List α) (w : Nat)
    (hw : w < W) (hdvd : W ∣ events.length) :
    ((dispatch W 0 events).length = events.length) ∧
    (∀ n (hn : n < (dispatch W 0 events).length),
      ((dispatch W 0 events).get ⟨n, hn⟩).2 = n % W) ∧
    (((dispatch W 0 events).map Prod.snd).count w = events.length / W) := by
  obtain ⟨k, hk⟩ := hdvd
  refine ⟨dispatch_length W 0 events, ?_, ?_⟩
  · intro n hn
    simpa using dispatch_get_snd W 0 events n hn
  · rw [dispatch_map_snd]
    simp only [Nat.zero_add]
    rw [hk, count_mod_range W k w hw, Nat.mul_div_cancel_left k (by omega)]

/-- Witness for C2: two workers, four connections accepted across two
listening sockets (tags 10 and 20), worker 1 receives exactly two. -/
theorem round_robin_fairness_witness :
    ((dispatch 2 0 [10, 20, 10, 20]).length = [10, 20, 10, 20].length) ∧
    (∀ n (hn : n < (dispatch 2 0 [10, 20, 10, 20]).length),
      ((dispatch 2 0 [10, 20, 10, 20]).get ⟨n, hn⟩).2 = n % 2) ∧
    (((dispatch 2 0 [10, 20, 10, 20]).map Prod.snd).count 1
      = [10, 20, 10, 20].length / 2) :=
  round_robin_fairness 2 [10, 20, 10, 20] 1 (by decide) (by decide)

/-! ## Graceful shutdown (spec sections 4.5 and 5; implementation outside the
extracted sources) -/

/-- Modelled from the spec: the observable state of a running server —
whether shutdown was triggered, how many connections are mid-request, how
many responses were delivered, how many connections were force-closed,
whether the shutdown grace period has expired, and whether the
`ServerHandle` has resolved. -/
structure RunState where
  shuttingDown : Bool
  active : Nat
  delivered : Nat
  forceClosed : Nat
  graceExpired : Bool
  resolved : Bool
deriving DecidableEq, Repr

/-- The lifecycle events of a running server. -/
inductive Event where
  | accept
  | trigger
  | complete
  | graceTimeout
  | forceClose
  | resolve
deriving DecidableEq, Repr

/-- Modelled from the spec: one labelled step of the running-server
lifecycle.  Accepting a connection requires that shutdown has not been
triggered (acceptors stop accepting once signalled); completing a connection
delivers its response to the client; the grace-period timeout can only occur
during shutdown; a still-active connection may be force-closed only after
the grace period expired; the handle resolves only during shutdown once no
connection is still active. -/
inductive Step : Event → RunState → RunState → Prop where
  | accept {s : RunState} (h : s.shuttingDown = false) (hr : s.resolved = false) :
      Step .accept s { s with active := s.active + 1 }
  | trigger {s : RunState} :
      Step .trigger s { s with shuttingDown := true }
  | complete {s : RunState} (h : 0 < s.active) :
      Step .complete s { s with active := s.active - 1, delivered := s.delivered + 1 }
  | graceTimeout {s : RunState} (h : s.shuttingDown = true) :
      Step .graceTimeout s { s with graceExpired := true }
  | forceClose {s : RunState} (h : s.graceExpired = true) (ha : 0 < s.active) :
      Step .forceClose s { s with active := s.active - 1, forceClosed := s.forceClosed + 1 }
  | resolve {s : RunState} (h : s.shuttingDown = true) (ha : s.active = 0) :
      Step .resolve s { s with resolved := true }

/-- A finite execution of the running server: the labelled events `evs`
lead from `s` to `t`. -/
inductive Reaches : RunState → List Event → RunState → Prop where
  | refl (s : RunState) : Reaches s [] s
  | step {s t u : RunState} {e : Event} {evs : List Event} :
      Step e s t → Reaches t evs u → Reaches s (e :: evs) u

/-- The shutdown flag never reverts: every step preserves it. -/
theorem step_shuttingDown_mono {e : Event} {s t : RunState}
    (hstep : Step e s t) (hs : s.shuttingDown = true) : t.shuttingDown = true := by
  cases hstep <;> simp_all

/-- Once shutdown is triggered, no execution contains an accept event. -/
theorem reaches_no_accept {s t : RunState} {evs : List Event}
    (hr : Reaches s evs t) (hs : s.shuttingDown = true) : Event.accept ∉ evs := by
  induction hr with
  | refl => simp
  | step hstep _ ih =>
    rename_i s' t' u' e' evs' _
    intro hmem
    rcases List.mem_cons.1 hmem with heq | hmem'
    · subst heq
      cases hstep
      simp_all
    · exact ih (step_shuttingDown_mono hstep hs) hmem'

/-- Claim C3: once graceful shutdown has been triggered, no new connection is
ever accepted afterwards; the handle resolves only during shutdown and only
when no connection is still mid-request; the count of connections accounted
for (active, delivered, or force-closed) is conserved by every non-accept
step, so a mid-request connection can only leave the active set by having
its response delivered or by being force-closed; and force-closing is
possible only after the configured grace period has expired. -/
theorem graceful_shutdown {s t u : RunState} {evs : List Event} {e : Event} :
    (Reaches s evs t → s.shuttingDown = true → Event.accept ∉ evs) ∧
    (Step .resolve s u → s.shuttingDown = true ∧ s.active = 0) ∧
    (Step .forceClose s u → s.graceExpired = true) ∧
    (Step e s u → e ≠ .accept →
      u.active + u.delivered + u.forceClosed
        = s.active + s.delivered + s.forceClosed) := by
  refine ⟨reaches_no_accept, ?_, ?_, ?_⟩
  · intro hstep
    cases hstep with
    | resolve h ha => exact ⟨h, ha⟩
  · intro hstep
    cases hstep with
    | forceClose h ha => exact h
  · intro hstep hne
    cases hstep <;> simp_all <;> omega

/-- A concrete drained shutting-down state, used by the C3 witness. -/
def drainedState : RunState :=
  { shuttingDown := true, active := 0, delivered := 1, forceClosed := 0,
    graceExpired := false, resolved := false }

/-- A concrete grace-expired state with one active connection, used by the
C3 witness. -/
def graceExpiredState : RunState :=
  { shuttingDown := true, active := 1, delivered := 0, forceClosed := 0,
    graceExpired := true, resolved := false }

/-- A concrete shutting-down state with one active connection, used by the
C3 witness. -/
def oneActiveState : RunState :=
  { shuttingDown := true, active := 1, delivered := 0, forceClosed := 0,
    graceExpired := false, resolved := false }

/-- The state reached from `drainedState` by resolving the handle. -/
def resolvedState : RunState :=
  { shuttingDown := true, active := 0, delivered := 1, forceClosed := 0,
    graceExpired := false, resolved := true }

/-- The state reached from `graceExpiredState` by force-closing the active
connection. -/
def forcedState : RunState :=
  { shuttingDown := true, active := 0, delivered := 0, forceClosed := 1,
    graceExpired := true, resolved := false }

/-- Witness for C3 at concrete states: a shut-down drained server resolving,
a grace-expired server force-closing, a connection completing, and an empty
execution after shutdown containing no accept. -/
theorem graceful_shutdown_witness :
    (Event.accept ∉ ([] : List Event)) ∧
    (drainedState.shuttingDown = true ∧ drainedState.active = 0) ∧
    (graceExpiredState.graceExpired = true) ∧
    (drainedState.active + drainedState.delivered + drainedState.forceClosed
      = oneActiveState.active + oneActiveState.delivered
        + oneActiveState.forceClosed) := by
  refine ⟨?_, ?_, ?_, ?_⟩
  · exact (@graceful_shutdown drainedState drainedState drainedState [] Event.trigger).1
      (Reaches.refl drainedState) rfl
  · exact (@graceful_shutdown drainedState drainedState resolvedState [] Event.resolve).2.1
      (show Step Event.resolve drainedState resolvedState from Step.resolve rfl rfl)
  · exact (@graceful_shutdown graceExpiredState graceExpiredState forcedState []
        Event.forceClose).2.2.1
      (show Step Event.forceClose graceExpiredState forcedState from
        Step.forceClose rfl (by decide))
  · exact (@graceful_shutdown oneActiveState oneActiveState drainedState []
        Event.complete).2.2.2
      (show Step Event.complete oneActiveState drainedState from
        Step.complete (by decide)) (by decide)

/-! ## Worker isolation (spec sections 4.4 and 7; implementation outside the
extracted sources) -/

/-- The outcome of invoking the request handler on one connection: a
response, or a handler failure (panic / abnormal termination). -/
inductive HandlerOutcome (R : Type) where
  | ok (response : R)
  | panicked
deriving DecidableEq, Repr

/-- The result a worker records for one connection. -/
inductive ConnResult (R : Type) where
  | served (response : R)
  | closed
deriving DecidableEq, Repr

/-- Modelled from the spec: a worker drives one connection; a handler
failure is caught at the connection boundary and closes only that
connection. -/
def Worker.drive {C R : Type} (handler : C → HandlerOutcome R) (c : C) : ConnResult R :=
  match handler c with
  | .ok r => .served r
  | .panicked => .closed

/-- Modelled from the spec: a worker drives every connection it received,
each independently of the others; the scheduler itself never crashes, so a
result is produced for every connection. -/
def Worker.run {C R : Type} (handler : C → HandlerOutcome R) (conns : List C) :
    List (ConnResult R) :=
  conns.map (Worker.drive handler)

/-- Claim C8: a handler failure terminates only its own connection.  The
worker's scheduler survives: it records a result for every connection it
received; each connection's result depends only on its own handler
invocation; and around a connection whose handler panicked, the sibling
connections before it and the subsequent connections after it are served
exactly as they would be on their own. -/
theorem handler_failure_isolation {C R : Type} (handler : C → HandlerOutcome R)
    (conns xs ys : List C) (bad : C) (hbad : handler bad = .panicked) :
    ((Worker.run handler conns).length = conns.length) ∧
    (∀ n : Nat, (Worker.run handler conns)[n]?
      = (conns[n]?).map (Worker.drive handler)) ∧
    (Worker.run handler (xs ++ bad :: ys)
      = Worker.run handler xs ++ ConnResult.closed :: Worker.run handler ys) := by
  refine ⟨by simp [Worker.run], ?_, ?_⟩
  · intro n
    simp [Worker.run, List.getElem?_map]
  · simp [Worker.run, Worker.drive, hbad]

/-- Witness for C8: a handler that panics on connection 1 but serves
connections 0 and 2. -/
theorem handler_failure_isolation_witness :
    ((Worker.run (fun c : Nat => if c = 1 then .panicked else .ok c) [0, 1, 2]).length
      = ([0, 1, 2] : List Nat).length) ∧
    (∀ n : Nat,
      (Worker.run (fun c : Nat => if c = 1 then .panicked else .ok c) [0, 1, 2])[n]?
        = (([0, 1, 2] : List Nat)[n]?).map
            (Worker.drive fun c : Nat => if c = 1 then .panicked else .ok c)) ∧
    (Worker.run (fun c : Nat => if c = 1 then .panicked else .ok c) ([0] ++ 1 :: [2])
      = Worker.run (fun c : Nat => if c = 1 then .panicked else .ok c) [0]
        ++ ConnResult.closed
          :: Worker.run (fun c : Nat => if c = 1 then .panicked else .ok c) [2]) :=
  handler_failure_isolation (fun c : Nat => if c = 1 then .panicked else .ok c)
    [0, 1, 2] [0] [2] 1 (by decide)

end Pavex
